import Mathlib

/-!
Verification of the fast-litellm acceleration layer.

The repository's Python package `litellm_rust_accelerator` ships pure-Python
fallback classes (`SimpleTokenCounter`, `SimpleRateLimiter`,
`SimpleConnectionPool`, `LiteLLMCore`, `Deployment`, `RoutingStrategy`) that
stand in when the native extension modules (`litellm_core`, `litellm_token`,
`litellm_connection_pool`, `litellm_rate_limiter`) are absent.  The fallback
classes are embedded here directly from
`src/litellm_rust_accelerator/src/litellm_rust_accelerator/__init__.py`.
The native modules' sources are not part of the repository snapshot; where a
property concerns behaviour only those modules implement (sliding-window rate
limiting, bounded pooling, router cooldown and duplicate rejection, strategy
construction by name), the component is modelled from the specification, and
each such definition carries a doc comment starting `Modelled from the spec:`.

Time is modelled as natural-number seconds; Python dictionaries carrying
opaque configuration are modelled as association lists of strings.
-/

/-! ## Fallback `SimpleTokenCounter` (from source)

Python source:
```
class SimpleTokenCounter:
    def __init__(self, cache_size: int = 100):
        self.cache_size = cache_size
    def count_tokens(self, text: str, model: str) -> int:
        char_count = len(text)
        approx_token_length = 4
        return (char_count + approx_token_length - 1) // approx_token_length
    def count_tokens_batch(self, texts: list, model: str) -> list:
        return [self.count_tokens(text, model) for text in texts]
    def get_cache_stats(self) -> dict:
        return \x7b"cached_encodings": 0, "max_cache_size": self.cache_size\x7d
```
The only instance state is `cache_size`, set in `__init__` and never
reassigned by any method.
-/

structure SimpleTokenCounter where
  cache_size : Nat
deriving DecidableEq, Repr

def SimpleTokenCounter.count_tokens (_c : SimpleTokenCounter) (text : String) (_model : String) : Nat :=
  let char_count := text.length
  let approx_token_length := 4
  (char_count + approx_token_length - 1) / approx_token_length

def SimpleTokenCounter.count_tokens_batch (c : SimpleTokenCounter) (texts : List String) (model : String) : List Nat :=
  texts.map (fun text => c.count_tokens text model)

structure CacheStats where
  cached_encodings : Nat
  max_cache_size : Nat
deriving DecidableEq, Repr

def SimpleTokenCounter.get_cache_stats (c : SimpleTokenCounter) : CacheStats :=
  { cached_encodings := 0, max_cache_size := c.cache_size }

/-- The calls a client can make on a `SimpleTokenCounter`. -/
inductive TCOp where
  | count (text model : String)
  | countBatch (texts : List String) (model : String)
  | cacheStats
deriving DecidableEq, Repr

/-- State transition of one fallback token-counter call: no method of the
Python class assigns to `self`, so every call leaves the state unchanged. -/
def TCOp.step (c : SimpleTokenCounter) (_op : TCOp) : SimpleTokenCounter := c

/-- Run a sequence of token-counter calls from state `c`. -/
def runTC (c : SimpleTokenCounter) (ops : List TCOp) : SimpleTokenCounter :=
  ops.foldl TCOp.step c

theorem runTC_eq (c : SimpleTokenCounter) (ops : List TCOp) : runTC c ops = c := by
  induction ops with
  | nil => rfl
  | cons op rest ih =>
    simp only [runTC, List.foldl_cons] at *
    exact ih

/-! ## Fallback `SimpleConnectionPool` (from source)

Python source:
```
class SimpleConnectionPool:
    def __init__(self, max_connections_per_provider: int = 10):
        self.max_connections_per_provider = max_connections_per_provider
    def get_connection(self, provider: str) -> str:
        return f"\x7bprovider\x7d_connection"
    def return_connection(self, connection_id: str) -> bool:
        return True
    def close_connection(self, connection_id: str) -> bool:
        return True
    def get_pool_stats(self) -> dict: ...
```
-/

structure SimpleConnectionPool where
  max_connections_per_provider : Nat
deriving DecidableEq, Repr

def SimpleConnectionPool.get_connection (_p : SimpleConnectionPool) (provider : String) : String :=
  provider ++ "_connection"

def SimpleConnectionPool.return_connection (_p : SimpleConnectionPool) (_connection_id : String) : Bool :=
  true

def SimpleConnectionPool.close_connection (_p : SimpleConnectionPool) (_connection_id : String) : Bool :=
  true

structure PoolStats where
  providers : Nat
  total_available : Nat
  total_in_use : Nat
  max_connections_per_provider : Nat
deriving DecidableEq, Repr

def SimpleConnectionPool.get_pool_stats (p : SimpleConnectionPool) : PoolStats :=
  { providers := 0
    total_available := 0
    total_in_use := 0
    max_connections_per_provider := p.max_connections_per_provider }

/-- The calls a client can make on a `SimpleConnectionPool`. -/
inductive CPOp where
  | get (provider : String)
  | ret (connection_id : String)
  | close (connection_id : String)
  | stats
deriving DecidableEq, Repr

/-- State transition of one fallback pool call: no method of the Python class
assigns to `self`, so every call leaves the state unchanged. -/
def CPOp.step (p : SimpleConnectionPool) (_op : CPOp) : SimpleConnectionPool := p

/-- Run a sequence of pool calls from state `p`. -/
def runCP (p : SimpleConnectionPool) (ops : List CPOp) : SimpleConnectionPool :=
  ops.foldl CPOp.step p

theorem runCP_eq (p : SimpleConnectionPool) (ops : List CPOp) : runCP p ops = p := by
  induction ops with
  | nil => rfl
  | cons op rest ih =>
    simp only [runCP, List.foldl_cons] at *
    exact ih

/-! ## Fallback `Deployment` (from source)

Python source stores `model_name` plus two opaque dicts; the dicts are
modelled as association lists of strings. -/

structure Deployment where
  model_name : String
  litellm_params : List (String × String)
  model_info : List (String × String)
deriving DecidableEq, Repr

/-! ## Spec-modelled native RateLimiter -/

/-- One recorded consumption: a key, the time (seconds) it was recorded, and
the number of units consumed. -/
structure RLEntry where
  key : String
  time : Nat
  units : Nat
deriving DecidableEq, Repr

/-- Modelled from the spec: the native `litellm_rate_limiter` module is absent
from the repository snapshot; per the spec the RateLimiter keeps a per-key
sliding-window record of timestamped consumption.  The state is the log of
recorded consumptions. -/
structure RateLimiter where
  entries : List RLEntry
deriving DecidableEq, Repr

def RateLimiter.empty : RateLimiter := ⟨[]⟩

/-- Modelled from the spec: an entry at time `t` counts at time `now` for
window `window` iff `t` lies in the half-open interval `(now - window, now]`
(written without truncating subtraction as `now < t + window`). -/
def RLEntry.inWindow (e : RLEntry) (window now : Nat) : Bool :=
  decide (now < e.time + window) && decide (e.time ≤ now)

/-- Modelled from the spec: `consume_tokens(key, count)` records `count` units
of consumption against `key` at the current time and reports acceptance; the
record-only semantics is the documented choice the spec leaves open. -/
def RateLimiter.consume_tokens (rl : RateLimiter) (key : String) (tokens : Nat) (now : Nat) : RateLimiter :=
  ⟨⟨key, now, tokens⟩ :: rl.entries⟩

/-- Total units recorded for `key` inside the trailing window at `now`. -/
def RateLimiter.windowCount (rl : RateLimiter) (key : String) (window now : Nat) : Nat :=
  ((rl.entries.filter (fun e => e.key == key && e.inWindow window now)).map (fun e => e.units)).sum

/-- Modelled from the spec: `check_rate_limit(key, limit, window_seconds)` is
true iff admitting one more unit would not exceed `limit` counting only the
activity within the trailing window. -/
def RateLimiter.check_rate_limit (rl : RateLimiter) (key : String) (limit window now : Nat) : Bool :=
  decide (rl.windowCount key window now + 1 ≤ limit)

/-! ## Spec-modelled native ConnectionPool -/

inductive PoolError where
  | PoolExhaustedError
deriving DecidableEq, Repr

/-- Modelled from the spec: the native `litellm_connection_pool` module is
absent from the repository snapshot; per the spec the pool keeps, per
provider, a set of available handles and a set of in-use handles, bounded by
`max_connections_per_provider`.  Handles are recorded as
`(provider, handle_id)` pairs and fresh handle ids are minted from a
counter. -/
structure ConnectionPool where
  max_connections_per_provider : Nat
  available : List (String × String)
  in_use : List (String × String)
  next_id : Nat
deriving DecidableEq, Repr

def ConnectionPool.init (max_connections_per_provider : Nat) : ConnectionPool :=
  { max_connections_per_provider := max_connections_per_provider
    available := []
    in_use := []
    next_id := 0 }

/-- Remove the first available handle of `provider`, returning it and the
remaining availability list. -/
def popAvailable (provider : String) : List (String × String) → Option (String × List (String × String))
  | [] => none
  | e :: rest =>
    if e.1 == provider then some (e.2, rest)
    else match popAvailable provider rest with
      | some (h, rest') => some (h, e :: rest')
      | none => none

/-- Number of in-use handles of `provider`. -/
def ConnectionPool.inUseCount (p : ConnectionPool) (provider : String) : Nat :=
  (p.in_use.filter (fun e => e.1 == provider)).length

/-- Modelled from the spec: `get_connection` prefers reusing an available
handle; it mints a new handle id only when no handle is available and the
provider's in-use count is below the maximum, and fails with
`PoolExhaustedError` otherwise. -/
def ConnectionPool.get_connection (p : ConnectionPool) (provider : String) : Except PoolError (String × ConnectionPool) :=
  match popAvailable provider p.available with
  | some (h, rest) =>
    Except.ok (h, { p with available := rest, in_use := (provider, h) :: p.in_use })
  | none =>
    if p.inUseCount provider < p.max_connections_per_provider then
      let h := provider ++ "_" ++ toString p.next_id
      Except.ok (h, { p with in_use := (provider, h) :: p.in_use, next_id := p.next_id + 1 })
    else
      Except.error PoolError.PoolExhaustedError

/-- Remove the first in-use record with the given handle id. -/
def removeInUse (handle : String) : List (String × String) → Option ((String × String) × List (String × String))
  | [] => none
  | e :: rest =>
    if e.2 == handle then some (e, rest)
    else match removeInUse handle rest with
      | some (f, rest') => some (f, e :: rest')
      | none => none

/-- Modelled from the spec: `return_connection` moves a handle from in-use
back to available, reporting false for an unknown handle. -/
def ConnectionPool.return_connection (p : ConnectionPool) (handle : String) : Bool × ConnectionPool :=
  match removeInUse handle p.in_use with
  | some (e, rest) => (true, { p with in_use := rest, available := e :: p.available })
  | none => (false, p)

/-! ## Spec-modelled native RoutingStrategy

The fallback class in the source fixes the integer ids
(`SimpleShuffle = 0` … `LeastBusyWithPenalty = 6`); construction from a
canonical lowercase-hyphenated name is implemented only by the absent native
`litellm_core` module and is modelled from the spec. -/

inductive RoutingStrategy where
  | SimpleShuffle
  | LeastBusy
  | LatencyBased
  | CostBased
  | UsageBasedV1
  | UsageBasedV2
  | LeastBusyWithPenalty
deriving DecidableEq, Repr

/-- Canonical integer id of each strategy, from the fallback class constants
in the source. -/
def RoutingStrategy.toId : RoutingStrategy → Nat
  | .SimpleShuffle => 0
  | .LeastBusy => 1
  | .LatencyBased => 2
  | .CostBased => 3
  | .UsageBasedV1 => 4
  | .UsageBasedV2 => 5
  | .LeastBusyWithPenalty => 6

/-- Modelled from the spec: canonical lowercase-hyphenated name of each
strategy (the spec names `"least-busy"` as the example). -/
def RoutingStrategy.toName : RoutingStrategy → String
  | .SimpleShuffle => "simple-shuffle"
  | .LeastBusy => "least-busy"
  | .LatencyBased => "latency-based"
  | .CostBased => "cost-based"
  | .UsageBasedV1 => "usage-based-v1"
  | .UsageBasedV2 => "usage-based-v2"
  | .LeastBusyWithPenalty => "least-busy-with-penalty"

/-- Modelled from the spec: construction from a canonical integer id. -/
def RoutingStrategy.fromId : Nat → Option RoutingStrategy
  | 0 => some .SimpleShuffle
  | 1 => some .LeastBusy
  | 2 => some .LatencyBased
  | 3 => some .CostBased
  | 4 => some .UsageBasedV1
  | 5 => some .UsageBasedV2
  | 6 => some .LeastBusyWithPenalty
  | _ => none

/-- Modelled from the spec: construction from a canonical
lowercase-hyphenated name. -/
def RoutingStrategy.fromName (name : String) : Option RoutingStrategy :=
  if name == "simple-shuffle" then some .SimpleShuffle
  else if name == "least-busy" then some .LeastBusy
  else if name == "latency-based" then some .LatencyBased
  else if name == "cost-based" then some .CostBased
  else if name == "usage-based-v1" then some .UsageBasedV1
  else if name == "usage-based-v2" then some .UsageBasedV2
  else if name == "least-busy-with-penalty" then some .LeastBusyWithPenalty
  else none

/-! ## Spec-modelled native Router -/

inductive RouterError where
  | DuplicateDeploymentError
  | NoHealthyDeploymentError
deriving DecidableEq, Repr

/-- Look up a per-deployment counter, defaulting to zero for a deployment with
no recorded samples (the spec's documented cold-start choice). -/
def lookupCounter (m : List (String × Nat)) (k : String) : Nat :=
  match m.find? (fun e => e.1 == k) with
  | some e => e.2
  | none => 0

/-- Modelled from the spec: the native `litellm_core` router is absent from
the repository snapshot; per the spec the Router owns the deployment set in
insertion order, cooldown expiry timestamps, and per-deployment rolling
counters (busy counts, latency, usage, failure penalties).  Newest cooldown
entries are consed to the front, so a lookup sees the most recent expiry. -/
structure RouterState where
  cooldown_time_seconds : Nat
  deployments : List Deployment
  cooldown_until : List (String × Nat)
  busy : List (String × Nat)
  latency : List (String × Nat)
  usage : List (String × Nat)
  penalty : List (String × Nat)
deriving DecidableEq, Repr

def RouterState.init (cooldown_time_seconds : Nat) : RouterState :=
  { cooldown_time_seconds := cooldown_time_seconds
    deployments := []
    cooldown_until := []
    busy := []
    latency := []
    usage := []
    penalty := [] }

/-- Modelled from the spec: `add_deployment` rejects a duplicate `model_name`
with `DuplicateDeploymentError` and otherwise appends the deployment. -/
def RouterState.add_deployment (r : RouterState) (d : Deployment) : Except RouterError RouterState :=
  if r.deployments.any (fun e => e.model_name == d.model_name) then
    Except.error RouterError.DuplicateDeploymentError
  else
    Except.ok { r with deployments := r.deployments ++ [d] }

def RouterState.get_deployment_names (r : RouterState) : List String :=
  r.deployments.map (fun d => d.model_name)

/-- Modelled from the spec: a failure signalled by the caller places the
deployment into cooldown until `now + cooldown_time_seconds`. -/
def RouterState.record_failure (r : RouterState) (name : String) (now : Nat) : RouterState :=
  { r with cooldown_until := (name, now + r.cooldown_time_seconds) :: r.cooldown_until }

/-- Cooldown expiry timestamp for a deployment name (0 when never failed):
the most recent recorded expiry wins. -/
def RouterState.cooldownUntil (r : RouterState) (name : String) : Nat :=
  match r.cooldown_until.find? (fun e => e.1 == name) with
  | some e => e.2
  | none => 0

/-- A deployment is in cooldown at `now` while `now` is strictly before its
cooldown expiry. -/
def RouterState.inCooldown (r : RouterState) (name : String) (now : Nat) : Bool :=
  decide (now < r.cooldownUntil name)

/-- Modelled from the spec: the deployments eligible for selection at `now`
are exactly those not in cooldown, in insertion order. -/
def RouterState.eligible (r : RouterState) (now : Nat) : List Deployment :=
  r.deployments.filter (fun d => !(r.inCooldown d.model_name now))

/-- Index of the first minimiser of `f` in `l` (0 for the empty list):
insertion-order tie-break per the spec. -/
def argminIdx (f : Deployment → Nat) (l : List Deployment) : Nat :=
  match l.enum.foldl
      (fun best p =>
        match best with
        | none => some (p.1, f p.2)
        | some (bi, bv) => if f p.2 < bv then some (p.1, f p.2) else some (bi, bv))
      none with
  | some (bi, _) => bi
  | none => 0

/-- Walk a weight list, landing in the slot containing target `t`. -/
def pickByWeight : List Nat → Nat → Nat
  | [], _ => 0
  | w :: rest, t => if t < w then 0 else 1 + pickByWeight rest (t - w)

/-- Modelled from the spec: weighted choice with weights inversely related to
recent usage (`total usage + 1 - usage d`, kept positive); the caller's seed
drives the randomness. -/
def weightedIdx (f : Deployment → Nat) (seed : Nat) (l : List Deployment) : Nat :=
  let total := (l.map f).sum
  let ws := l.map (fun d => total + 1 - f d)
  let wsum := ws.sum
  pickByWeight ws (if wsum = 0 then 0 else seed % wsum)

/-- Parse a cost-per-token figure out of the opaque `model_info` metadata
(0 when absent, the documented cold-start choice). -/
def Deployment.costPerToken (d : Deployment) : Nat :=
  match d.model_info.find? (fun e => e.1 == "cost_per_token") with
  | some e => e.2.toNat?.getD 0
  | none => 0

/-- Modelled from the spec: each strategy selects an index into the eligible
list.  `SimpleShuffle` is the caller-seeded uniform choice; the argmin
strategies tie-break by insertion order; `UsageBasedV2` ages the usage
counters with a halving decay (the documented decay choice); and
`LeastBusyWithPenalty` adds the current failure penalty to the busy count. -/
def RouterState.selectIdx (r : RouterState) (strat : RoutingStrategy) (seed : Nat) (el : List Deployment) : Nat :=
  match strat with
  | .SimpleShuffle => seed % el.length
  | .LeastBusy => argminIdx (fun d => lookupCounter r.busy d.model_name) el
  | .LatencyBased => argminIdx (fun d => lookupCounter r.latency d.model_name) el
  | .CostBased => argminIdx (fun d => d.costPerToken) el
  | .UsageBasedV1 => weightedIdx (fun d => lookupCounter r.usage d.model_name) seed el
  | .UsageBasedV2 => weightedIdx (fun d => lookupCounter r.usage d.model_name / 2) seed el
  | .LeastBusyWithPenalty =>
    argminIdx (fun d => lookupCounter r.busy d.model_name + lookupCounter r.penalty d.model_name) el

/-- Modelled from the spec: `route_request` selects among the eligible
(not-in-cooldown) deployments per the configured strategy and fails with
`NoHealthyDeploymentError` when none is eligible.  The selected index is
reduced modulo the eligible count, so every strategy's choice stays inside
the eligible list. -/
def RouterState.route_request (r : RouterState) (strat : RoutingStrategy) (seed now : Nat) : Except RouterError Deployment :=
  match r.eligible now with
  | [] => Except.error RouterError.NoHealthyDeploymentError
  | d :: rest =>
    Except.ok ((d :: rest).getD (r.selectIdx strat seed (d :: rest) % (rest.length + 1)) d)

/-! ## Claim theorems -/

/-- C1: `count_tokens(text, model)` returns the same value on every call,
independent of prior call history and cache occupancy: two runs of any
operation sequences calling `count_tokens` with the same `(text, model)`
obtain equal results, and counters with different configured cache sizes
agree as well. -/
theorem count_tokens_deterministic (c c' : SimpleTokenCounter) (ops ops' : List TCOp)
    (text model : String) :
    (runTC c ops).count_tokens text model = (runTC c ops').count_tokens text model
    ∧ c.count_tokens text model = c'.count_tokens text model :=
  ⟨rfl, rfl⟩

/-- C2: `count_tokens_batch(texts, model)` is exactly one `count_tokens` call
per element in order; it maps the empty list to the empty list and is
length- and order-preserving. -/
theorem count_tokens_batch_equiv (c : SimpleTokenCounter) (texts : List String) (model : String) :
    c.count_tokens_batch [] model = []
    ∧ c.count_tokens_batch texts model = texts.map (fun t => c.count_tokens t model)
    ∧ (c.count_tokens_batch texts model).length = texts.length
    ∧ ∀ i : Nat, (c.count_tokens_batch texts model)[i]? =
        (texts[i]?).map (fun t => c.count_tokens t model) := by
  refine ⟨rfl, rfl, ?_, ?_⟩
  · simp [SimpleTokenCounter.count_tokens_batch]
  · intro i
    simp [SimpleTokenCounter.count_tokens_batch]

/-- C7: after every sequence of token-counter calls, the cache statistics
satisfy `cached_encodings ≤ max_cache_size`, and `max_cache_size` equals the
configured `cache_size`. -/
theorem cache_stats_bounded (c : SimpleTokenCounter) (ops : List TCOp) :
    (runTC c ops).get_cache_stats.cached_encodings
      ≤ (runTC c ops).get_cache_stats.max_cache_size
    ∧ (runTC c ops).get_cache_stats.max_cache_size = c.cache_size := by
  rw [runTC_eq]
  exact ⟨Nat.zero_le _, rfl⟩

/-- C9: the fallback `count_tokens` returns `(len(text) + 3) // 4` for every
text and model; the model argument is never consulted and the result is
determined by the text's character length alone. -/
theorem count_tokens_fallback_formula (c : SimpleTokenCounter) (text text' model model' : String) :
    c.count_tokens text model = (text.length + 3) / 4
    ∧ c.count_tokens text model = c.count_tokens text model'
    ∧ (text'.length = text.length → c.count_tokens text' model = c.count_tokens text model) := by
  have hnum : text.length + 4 - 1 = text.length + 3 := by omega
  refine ⟨?_, rfl, ?_⟩
  · simp [SimpleTokenCounter.count_tokens, hnum]
  · intro h
    simp [SimpleTokenCounter.count_tokens, h]

/-- C9 witness. -/
theorem count_tokens_fallback_formula_witness :
    (SimpleTokenCounter.mk 100).count_tokens "abcd" "gpt-4" = ("abcd".length + 3) / 4
    ∧ (SimpleTokenCounter.mk 100).count_tokens "abcd" "gpt-4"
        = (SimpleTokenCounter.mk 100).count_tokens "abcd" "unknown-model"
    ∧ (SimpleTokenCounter.mk 100).count_tokens "wxyz" "gpt-4"
        = (SimpleTokenCounter.mk 100).count_tokens "abcd" "gpt-4" := by
  have h := count_tokens_fallback_formula (SimpleTokenCounter.mk 100) "abcd" "wxyz" "gpt-4" "unknown-model"
  exact ⟨h.1, h.2.1, h.2.2 (by decide)⟩

/-- C10: the fallback connection pool is stateless: after any operation
sequence, `get_connection` returns `provider + "_connection"` (so successive
checkouts receive equal handle ids), `return_connection` and
`close_connection` report `True` for every argument, and `get_pool_stats`
reports zero providers, zero available and zero in use. -/
theorem fallback_pool_stateless (p : SimpleConnectionPool) (ops ops' : List CPOp)
    (provider cid : String) :
    (runCP p ops).get_connection provider = provider ++ "_connection"
    ∧ (runCP p ops).get_connection provider = (runCP p ops').get_connection provider
    ∧ (runCP p ops).return_connection cid = true
    ∧ (runCP p ops).close_connection cid = true
    ∧ (runCP p ops).get_pool_stats =
        { providers := 0
          total_available := 0
          total_in_use := 0
          max_connections_per_provider := p.max_connections_per_provider } := by
  rw [runCP_eq, runCP_eq]
  exact ⟨rfl, rfl, rfl, rfl, rfl⟩

/-- C8: `RoutingStrategy` is the closed enumeration of the seven strategies;
each member is constructible from its canonical integer id and from its
canonical lowercase-hyphenated name, and both construction forms map to the
same identity. -/
theorem routing_strategy_closed_enum (s : RoutingStrategy) :
    (s = .SimpleShuffle ∨ s = .LeastBusy ∨ s = .LatencyBased ∨ s = .CostBased
      ∨ s = .UsageBasedV1 ∨ s = .UsageBasedV2 ∨ s = .LeastBusyWithPenalty)
    ∧ RoutingStrategy.fromId s.toId = some s
    ∧ RoutingStrategy.fromName s.toName = some s := by
  cases s <;> exact ⟨by simp, by decide, by decide⟩

/-! Concrete pool states traversed by the capacity scenario with
`max_connections_per_provider = 2` for provider `"p"`. -/

def poolScenario0 : ConnectionPool := ConnectionPool.init 2

def poolScenario1 : ConnectionPool := ⟨2, [], [("p", "p_0")], 1⟩

def poolScenario2 : ConnectionPool := ⟨2, [], [("p", "p_1"), ("p", "p_0")], 2⟩

def poolScenario3 : ConnectionPool := ⟨2, [("p", "p_0")], [("p", "p_1")], 2⟩

def poolScenario4 : ConnectionPool := ⟨2, [], [("p", "p_0"), ("p", "p_1")], 2⟩

/-- C4: with `max_connections_per_provider = 2`, three successive
`get_connection("p")` calls succeed exactly twice and the third fails with
`PoolExhaustedError`; after one `return_connection`, a fourth
`get_connection("p")` succeeds and reuses the returned handle `"p_0"` instead
of minting a new handle id (the mint counter `next_id` is unchanged). -/
theorem connection_pool_capacity_scenario :
    poolScenario0.get_connection "p" = Except.ok ("p_0", poolScenario1)
    ∧ poolScenario1.get_connection "p" = Except.ok ("p_1", poolScenario2)
    ∧ poolScenario2.get_connection "p" = Except.error PoolError.PoolExhaustedError
    ∧ poolScenario2.return_connection "p_0" = (true, poolScenario3)
    ∧ poolScenario3.get_connection "p" = Except.ok ("p_0", poolScenario4)
    ∧ poolScenario4.next_id = poolScenario3.next_id :=
  ⟨rfl, rfl, rfl, rfl, rfl, rfl⟩

/-- C6: a second `add_deployment` with an already-registered `model_name`
fails with `DuplicateDeploymentError` and leaves the first registration
intact: the name appears exactly once in `get_deployment_names` when it was
absent before the first call. -/
theorem add_deployment_duplicate_rejected (r r' : RouterState) (d1 d2 : Deployment)
    (hname : d2.model_name = d1.model_name)
    (hadd : r.add_deployment d1 = Except.ok r') :
    r'.add_deployment d2 = Except.error RouterError.DuplicateDeploymentError
    ∧ r'.get_deployment_names.count d1.model_name
        = r.get_deployment_names.count d1.model_name + 1
    ∧ (r.get_deployment_names.count d1.model_name = 0 →
        r'.get_deployment_names.count d1.model_name = 1) := by
  unfold RouterState.add_deployment at hadd
  split at hadd
  · exact absurd hadd (by simp)
  · injection hadd with hr'
    subst hr'
    have hcount : (r.get_deployment_names ++ [d1.model_name]).count d1.model_name
        = r.get_deployment_names.count d1.model_name + 1 := by
      simp [List.count_append]
    refine ⟨?_, ?_, ?_⟩
    · simp [RouterState.add_deployment, hname]
    · simp [RouterState.get_deployment_names]
    · intro hzero
      have := hcount
      simp [RouterState.get_deployment_names] at *
      omega

def depM : Deployment := ⟨"m", [], []⟩

def routerM : RouterState := { RouterState.init 60 with deployments := [depM] }

/-- C6 witness. -/
theorem add_deployment_duplicate_rejected_witness :
    routerM.add_deployment depM = Except.error RouterError.DuplicateDeploymentError
    ∧ routerM.get_deployment_names.count "m"
        = (RouterState.init 60).get_deployment_names.count "m" + 1
    ∧ routerM.get_deployment_names.count "m" = 1 := by
  have h := add_deployment_duplicate_rejected (RouterState.init 60) routerM depM depM rfl rfl
  exact ⟨h.1, h.2.1, h.2.2 (by decide)⟩

/-- C3: `check_rate_limit(key, limit, window_seconds)` is true iff admitting
one more unit would not exceed `limit` counting only activity inside the
trailing window; consumption recorded a full window or more before the check
never affects it; and in the spec's scenario (`limit = 5`, `window = 60`,
5 units consumed at `t = 0`) a check at `t = 30` reports at-limit while a
check at `t = 61` reports under-limit again. -/
theorem check_rate_limit_sliding_window (rl : RateLimiter) (key kk : String)
    (limit window now u t0 : Nat) :
    (rl.check_rate_limit key limit window now = true ↔
      ((rl.entries.filter (fun e => e.key == key && e.inWindow window now)).map
        (fun e => e.units)).sum + 1 ≤ limit)
    ∧ (t0 + window ≤ now →
        (rl.consume_tokens kk u t0).check_rate_limit key limit window now
          = rl.check_rate_limit key limit window now)
    ∧ (RateLimiter.empty.consume_tokens "k" 5 0).check_rate_limit "k" 5 60 30 = false
    ∧ (RateLimiter.empty.consume_tokens "k" 5 0).check_rate_limit "k" 5 60 61 = true := by
  refine ⟨?_, ?_, by decide, by decide⟩
  · simp [RateLimiter.check_rate_limit, RateLimiter.windowCount]
  · intro hexpired
    have hout : (RLEntry.mk kk t0 u).inWindow window now = false := by
      simp [RLEntry.inWindow]
      omega
    simp [RateLimiter.check_rate_limit, RateLimiter.windowCount,
      RateLimiter.consume_tokens, List.filter_cons, hout]

/-- C3 witness. -/
theorem check_rate_limit_sliding_window_witness :
    ((RateLimiter.empty.consume_tokens "k" 5 0).consume_tokens "x" 7 1).check_rate_limit "k" 5 60 61
        = (RateLimiter.empty.consume_tokens "k" 5 0).check_rate_limit "k" 5 60 61
    ∧ (RateLimiter.empty.consume_tokens "k" 5 0).check_rate_limit "k" 5 60 30 = false
    ∧ (RateLimiter.empty.consume_tokens "k" 5 0).check_rate_limit "k" 5 60 61 = true := by
  have h := check_rate_limit_sliding_window (RateLimiter.empty.consume_tokens "k" 5 0)
    "k" "x" 5 60 61 7 1
  exact ⟨h.2.1 (by decide), h.2.2.1, h.2.2.2⟩

/-- An in-range `getD` yields a member of the list. -/
theorem getD_mem_of_lt {α : Type} (l : List α) (d : α) (i : Nat) (h : i < l.length) :
    l.getD i d ∈ l := by
  rw [List.getD_eq_getElem l d h]
  exact List.getElem_mem h

/-- Whatever deployment `route_request` returns is a member of the eligible
list at that time. -/
theorem route_request_mem (r : RouterState) (strat : RoutingStrategy) (seed now : Nat)
    (d : Deployment) (h : r.route_request strat seed now = Except.ok d) :
    d ∈ r.eligible now := by
  unfold RouterState.route_request at h
  split at h
  · exact absurd h (by simp)
  · rename_i d0 rest heq
    injection h with h
    subst h
    rw [heq]
    apply getD_mem_of_lt
    have hlen : (d0 :: rest).length = rest.length + 1 := by simp
    rw [hlen]
    exact Nat.mod_lt _ (Nat.succ_pos _)

/-- Eligible deployments are not in cooldown. -/
theorem eligible_not_in_cooldown (r : RouterState) (now : Nat) (d : Deployment)
    (h : d ∈ r.eligible now) : r.inCooldown d.model_name now = false := by
  unfold RouterState.eligible at h
  have hp := (List.mem_filter.mp h).2
  simpa using hp

/-- After `record_failure`, the failed deployment's cooldown expiry is the
failure time plus the configured cooldown. -/
theorem cooldownUntil_record_failure (r : RouterState) (name : String) (tf : Nat) :
    (r.record_failure name tf).cooldownUntil name = tf + r.cooldown_time_seconds := by
  simp [RouterState.record_failure, RouterState.cooldownUntil]

/-- C5: for a Router holding deployments `A` and `B`, once a failure is
signalled for `A` at time `tf`, every `route_request` call before the
cooldown has elapsed — under any strategy and any seed — never returns a
deployment named like `A`; once the cooldown has elapsed, `A` is eligible for
selection again. -/
theorem router_cooldown_exclusion (r : RouterState) (A B : Deployment) (tf : Nat)
    (hdep : r.deployments = [A, B]) :
    (∀ strat seed now d, now < tf + r.cooldown_time_seconds →
        (r.record_failure A.model_name tf).route_request strat seed now = Except.ok d →
        d.model_name ≠ A.model_name)
    ∧ (∀ now, tf + r.cooldown_time_seconds ≤ now →
        A ∈ (r.record_failure A.model_name tf).eligible now) := by
  constructor
  · intro strat seed now d hlt hroute heq
    have hmem := route_request_mem _ strat seed now d hroute
    have hcool := eligible_not_in_cooldown _ now d hmem
    rw [heq] at hcool
    unfold RouterState.inCooldown at hcool
    rw [cooldownUntil_record_failure] at hcool
    simp at hcool
    omega
  · intro now hge
    unfold RouterState.eligible
    apply List.mem_filter.mpr
    refine ⟨?_, ?_⟩
    · simp [RouterState.record_failure, hdep]
    · unfold RouterState.inCooldown
      rw [cooldownUntil_record_failure]
      simp
      omega

def depA : Deployment := ⟨"A", [], []⟩

def depB : Deployment := ⟨"B", [], []⟩

def routerAB : RouterState := { RouterState.init 60 with deployments := [depA, depB] }

/-- C5 witness. -/
theorem router_cooldown_exclusion_witness :
    depB.model_name ≠ depA.model_name
    ∧ depA ∈ (routerAB.record_failure depA.model_name 0).eligible 61 := by
  have h := router_cooldown_exclusion routerAB depA depB 0 rfl
  exact ⟨h.1 RoutingStrategy.SimpleShuffle 0 30 depB (by decide) rfl, h.2 61 (by decide)⟩
